import Mathlib

/- Verification development for the iobus CPLD parallel-bus driver
   (src/iobus.c).  The first part models the pin-level bus-emulation
   primitives: the GPIO data/direction registers the primitives touch,
   together with a log of the pin operations each bus cycle emits. -/

/-- Pin operations emitted by the simulated parallel-bus engine. -/
inductive PinOp where
  | setWrOp : PinOp
  | clrWrOp : PinOp
  | setRdOp : PinOp
  | clrRdOp : PinOp
  | setDataInOp : PinOp
  | setDataOutOp : PinOp
  | setAddrOp : Nat → PinOp
  | writeDataOp : Nat → PinOp
  | readDataOp : Nat → PinOp
deriving DecidableEq, Repr

/-- Modelled from the spec: constant `CPLD_ADDR_SHIFT` lives in the missing
header iobus.h.  The source's pin-map comment places the ten address lines
A0..A9 on GPIO4 pins 6..15, so the address field starts at bit 6. -/
def CPLD_ADDR_SHIFT : Nat := 6

/-- Modelled from the spec: constant `GPIO4_ADDR_MSK` lives in the missing
header iobus.h.  It keeps every GPIO4 bit not owned by the address lines
(pins 6..15), i.e. the complement of bits 6..15 in a 32-bit register. -/
def GPIO4_ADDR_MSK : Nat := 0xFFFF003F

/-- Modelled from the spec: constant `CPLD_DATA_SHIFT` lives in the missing
header iobus.h.  The data lines D0..D7 sit on GPIO3 pins 16..23, matching
the literal masks 0xFF00FFFF / 0xFF0000 used by set_data_in / set_data_out. -/
def CPLD_DATA_SHIFT : Nat := 16

/-- Modelled from the spec: constant `GPIO3_DATA_MSK` lives in the missing
header iobus.h.  It keeps every GPIO3 bit not owned by the data lines
(pins 16..23). -/
def GPIO3_DATA_MSK : Nat := 0xFF00FFFF

/-- The GPIO registers touched by the bus-emulation primitives, plus the
log of emitted pin operations.  Each field mirrors a 32-bit memory-mapped
register; every write goes through an explicit mod 2^32 truncation,
matching the 32-bit width of iowrite32. -/
structure Pin where
  gpio1_dr : Nat
  gpio3_dr : Nat
  gpio3_gdir : Nat
  gpio4_dr : Nat
  log : List PinOp
deriving Repr

/-- Assert the write strobe: clear bit 0 of GPIO1_DR (read-modify-write). -/
def set_wr (d : Pin) : Pin :=
  { d with gpio1_dr := ((d.gpio1_dr &&& 0xFFFFFFFE) % 2 ^ 32),
           log := d.log ++ [PinOp.setWrOp] }

/-- Deassert the write strobe: set bit 0 of GPIO1_DR. -/
def clr_wr (d : Pin) : Pin :=
  { d with gpio1_dr := ((d.gpio1_dr ||| 0x1) % 2 ^ 32),
           log := d.log ++ [PinOp.clrWrOp] }

/-- Assert the read strobe: clear bit 1 of GPIO1_DR. -/
def set_rd (d : Pin) : Pin :=
  { d with gpio1_dr := ((d.gpio1_dr &&& 0xFFFFFFFD) % 2 ^ 32),
           log := d.log ++ [PinOp.setRdOp] }

/-- Deassert the read strobe: set bit 1 of GPIO1_DR. -/
def clr_rd (d : Pin) : Pin :=
  { d with gpio1_dr := ((d.gpio1_dr ||| 0x2) % 2 ^ 32),
           log := d.log ++ [PinOp.clrRdOp] }

/-- Switch the data lines (GPIO3 pins 16..23) to input. -/
def set_data_in (d : Pin) : Pin :=
  { d with gpio3_gdir := ((d.gpio3_gdir &&& 0xFF00FFFF) % 2 ^ 32),
           log := d.log ++ [PinOp.setDataInOp] }

/-- Switch the data lines (GPIO3 pins 16..23) to output. -/
def set_data_out (d : Pin) : Pin :=
  { d with gpio3_gdir := ((d.gpio3_gdir ||| 0xFF0000) % 2 ^ 32),
           log := d.log ++ [PinOp.setDataOutOp] }

/-- Drive the address lines: replace bits 6..15 of GPIO4_DR by the address. -/
def set_addr (d : Pin) (addr : Nat) : Pin :=
  { d with gpio4_dr := (((d.gpio4_dr &&& GPIO4_ADDR_MSK) ||| (addr <<< CPLD_ADDR_SHIFT)) % 2 ^ 32),
           log := d.log ++ [PinOp.setAddrOp addr] }

/-- Drive the data lines: replace bits 16..23 of GPIO3_DR by the byte. -/
def write_data (d : Pin) (data : Nat) : Pin :=
  { d with gpio3_dr := (((d.gpio3_dr &&& GPIO3_DATA_MSK) ||| (data <<< CPLD_DATA_SHIFT)) % 2 ^ 32),
           log := d.log ++ [PinOp.writeDataOp data] }

/-- Sample the data lines: bits 16..23 of GPIO3_DR (the 32-bit complement
of GPIO3_DATA_MSK is 0xFF0000), cast to unsigned char. -/
def read_data (d : Pin) : Nat :=
  ((d.gpio3_dr &&& 0xFF0000) >>> 16) % 256

/-- One complete write bus cycle, exactly as in the source: data lines to
output, drive address, drive data, assert then deassert the write strobe,
data lines back to input. -/
def write_cpld (d : Pin) (addr : Nat) (data : Nat) : Pin :=
  set_data_in (clr_wr (set_wr (write_data (set_addr (set_data_out d) addr) data)))

/-- One complete read bus cycle, exactly as in the source: data lines to
input, drive address, assert then deassert the read strobe, then sample
the data lines; the sample is logged with the value actually read. -/
def read_cpld (d : Pin) (addr : Nat) : Nat × Pin :=
  let d1 := clr_rd (set_rd (set_addr (set_data_in d) addr))
  let v := read_data d1
  (v, { d1 with log := d1.log ++ [PinOp.readDataOp v] })

/-- The read-cycle pin-operation order the spec sentence describes: sample
the data lines before the read strobe is deasserted. -/
def specReadCycleOps (addr v : Nat) : List PinOp :=
  [PinOp.setDataInOp, PinOp.setAddrOp addr, PinOp.setRdOp,
    PinOp.readDataOp v, PinOp.clrRdOp]

/-- An all-zero pin state used for concrete evaluations. -/
def pinZero : Pin :=
  { gpio1_dr := 0, gpio3_dr := 0, gpio3_gdir := 0, gpio4_dr := 0, log := [] }

/- Bit-level helper lemmas: a masked read-modify-write of a 32-bit register
preserves every bit at which the AND-mask is set and the OR-value is clear. -/

theorem and_preserve (x m i : Nat) (hi : i < 32) (hm : m.testBit i = true) :
    ((x &&& m) % 2 ^ 32).testBit i = x.testBit i := by
  rw [Nat.testBit_mod_two_pow]
  simp [hi, hm]

theorem or_preserve (x v i : Nat) (hi : i < 32) (hv : v.testBit i = false) :
    ((x ||| v) % 2 ^ 32).testBit i = x.testBit i := by
  rw [Nat.testBit_mod_two_pow]
  simp [hi, hv]

theorem and_or_preserve (x m v i : Nat) (hi : i < 32)
    (hm : m.testBit i = true) (hv : v.testBit i = false) :
    (((x &&& m) ||| v) % 2 ^ 32).testBit i = x.testBit i := by
  rw [Nat.testBit_mod_two_pow]
  simp [hi, hm, hv]

theorem mask_wr_bit (i : Nat) (hi : i < 32) (h0 : i ≠ 0) :
    Nat.testBit 0xFFFFFFFE i = true := by
  have h1 : 1 ≤ i := Nat.pos_of_ne_zero h0
  interval_cases i <;> decide

theorem bit_one_foreign (i : Nat) (hi : i < 32) (h0 : i ≠ 0) :
    Nat.testBit 0x1 i = false := by
  have h1 : 1 ≤ i := Nat.pos_of_ne_zero h0
  interval_cases i <;> decide

theorem mask_rd_bit (i : Nat) (hi : i < 32) (h1 : i ≠ 1) :
    Nat.testBit 0xFFFFFFFD i = true := by
  interval_cases i <;> revert h1 <;> decide

theorem bit_two_foreign (i : Nat) (hi : i < 32) (h1 : i ≠ 1) :
    Nat.testBit 0x2 i = false := by
  interval_cases i <;> revert h1 <;> decide

theorem mask_data_foreign (i : Nat) (hi : i < 32) (h : i < 16 ∨ 24 ≤ i) :
    Nat.testBit 0xFF00FFFF i = true := by
  rcases h with h | h
  · interval_cases i <;> decide
  · interval_cases i <;> decide

theorem bits_data_foreign (i : Nat) (hi : i < 32) (h : i < 16 ∨ 24 ≤ i) :
    Nat.testBit 0xFF0000 i = false := by
  rcases h with h | h
  · interval_cases i <;> decide
  · interval_cases i <;> decide

theorem mask_data_owned (i : Nat) (h16 : 16 ≤ i) (h24 : i < 24) :
    Nat.testBit 0xFF00FFFF i = false := by
  interval_cases i <;> decide

theorem mask_addr_foreign (i : Nat) (hi : i < 32) (h : i < 6 ∨ 16 ≤ i) :
    Nat.testBit 0xFFFF003F i = true := by
  rcases h with h | h
  · interval_cases i <;> decide
  · interval_cases i <;> decide

theorem addr_shift_foreign (addr i : Nat) (haddr : addr < 1024)
    (h : i < 6 ∨ 16 ≤ i) : Nat.testBit (addr <<< 6) i = false := by
  rcases h with h | h
  · simp [Nat.testBit_shiftLeft, Nat.not_le.mpr h]
  · have hlt : addr < 2 ^ (i - 6) := by
      calc addr < 1024 := haddr
        _ = 2 ^ 10 := by norm_num
        _ ≤ 2 ^ (i - 6) := Nat.pow_le_pow_right (by norm_num) (by omega)
    simp [Nat.testBit_shiftLeft, Nat.testBit_lt_two_pow hlt]

theorem data_shift_foreign (v i : Nat) (hv : v < 256)
    (h : i < 16 ∨ 24 ≤ i) : Nat.testBit (v <<< 16) i = false := by
  rcases h with h | h
  · simp [Nat.testBit_shiftLeft, Nat.not_le.mpr h]
  · have hlt : v < 2 ^ (i - 16) := by
      calc v < 256 := hv
        _ = 2 ^ 8 := by norm_num
        _ ≤ 2 ^ (i - 16) := Nat.pow_le_pow_right (by norm_num) (by omega)
    simp [Nat.testBit_shiftLeft, Nat.testBit_lt_two_pow hlt]

/-- Claim C8: every pin-register modification performed by the bus engine
(write-strobe set/clear, read-strobe set/clear, data-direction switch,
address drive, data drive) is a read-modify-write that changes only the
bits owned by this driver in that pin-control register, leaving every
other bit of the 32-bit register equal to its prior value. -/
theorem pin_rmw_preserves_foreign_bits (d : Pin) (addr v i : Nat)
    (hi : i < 32) (haddr : addr < 1024) (hv : v < 256) :
    (i ≠ 0 → (set_wr d).gpio1_dr.testBit i = d.gpio1_dr.testBit i) ∧
    (i ≠ 0 → (clr_wr d).gpio1_dr.testBit i = d.gpio1_dr.testBit i) ∧
    (i ≠ 1 → (set_rd d).gpio1_dr.testBit i = d.gpio1_dr.testBit i) ∧
    (i ≠ 1 → (clr_rd d).gpio1_dr.testBit i = d.gpio1_dr.testBit i) ∧
    (i < 16 ∨ 24 ≤ i → (set_data_in d).gpio3_gdir.testBit i = d.gpio3_gdir.testBit i) ∧
    (i < 16 ∨ 24 ≤ i → (set_data_out d).gpio3_gdir.testBit i = d.gpio3_gdir.testBit i) ∧
    (i < 6 ∨ 16 ≤ i → (set_addr d addr).gpio4_dr.testBit i = d.gpio4_dr.testBit i) ∧
    (i < 16 ∨ 24 ≤ i → (write_data d v).gpio3_dr.testBit i = d.gpio3_dr.testBit i) := by
  refine ⟨?_, ?_, ?_, ?_, ?_, ?_, ?_, ?_⟩
  · intro h0
    exact and_preserve _ _ _ hi (mask_wr_bit i hi h0)
  · intro h0
    exact or_preserve _ _ _ hi (bit_one_foreign i hi h0)
  · intro h1
    exact and_preserve _ _ _ hi (mask_rd_bit i hi h1)
  · intro h1
    exact or_preserve _ _ _ hi (bit_two_foreign i hi h1)
  · intro h
    exact and_preserve _ _ _ hi (mask_data_foreign i hi h)
  · intro h
    exact or_preserve _ _ _ hi (bits_data_foreign i hi h)
  · intro h
    exact and_or_preserve _ _ _ _ hi (mask_addr_foreign i hi h)
      (addr_shift_foreign addr i haddr h)
  · intro h
    exact and_or_preserve _ _ _ _ hi (mask_data_foreign i hi h)
      (data_shift_foreign v i hv h)

/-- Witness for C8 at a concrete state, address 5, data 7, bit 2. -/
theorem pin_rmw_preserves_foreign_bits_witness :
    (2 < 32 ∧ 5 < 1024 ∧ 7 < 256) ∧
    ((2 ≠ 0 → (set_wr pinZero).gpio1_dr.testBit 2 = pinZero.gpio1_dr.testBit 2) ∧
     (2 ≠ 0 → (clr_wr pinZero).gpio1_dr.testBit 2 = pinZero.gpio1_dr.testBit 2) ∧
     (2 ≠ 1 → (set_rd pinZero).gpio1_dr.testBit 2 = pinZero.gpio1_dr.testBit 2) ∧
     (2 ≠ 1 → (clr_rd pinZero).gpio1_dr.testBit 2 = pinZero.gpio1_dr.testBit 2) ∧
     (2 < 16 ∨ 24 ≤ 2 → (set_data_in pinZero).gpio3_gdir.testBit 2 = pinZero.gpio3_gdir.testBit 2) ∧
     (2 < 16 ∨ 24 ≤ 2 → (set_data_out pinZero).gpio3_gdir.testBit 2 = pinZero.gpio3_gdir.testBit 2) ∧
     (2 < 6 ∨ 16 ≤ 2 → (set_addr pinZero 5).gpio4_dr.testBit 2 = pinZero.gpio4_dr.testBit 2) ∧
     (2 < 16 ∨ 24 ≤ 2 → (write_data pinZero 7).gpio3_dr.testBit 2 = pinZero.gpio3_dr.testBit 2)) :=
  ⟨by decide, pin_rmw_preserves_foreign_bits pinZero 5 7 2 (by decide) (by decide) (by decide)⟩

/-- Claim C7: every writeByte bus cycle emits exactly the pin-operation
sequence data-to-output, drive address, drive data, assert write strobe,
deassert write strobe, data back to input — so address and data are stable
before the strobe asserts — and the cycle ends with the write strobe
deasserted, the read strobe unchanged from its prior level, and the data
lines set to input (the bus idle/listen state). -/
theorem write_cpld_cycle_ops (d : Pin) (addr data : Nat) :
    (write_cpld d addr data).log =
      d.log ++ [PinOp.setDataOutOp, PinOp.setAddrOp addr, PinOp.writeDataOp data,
        PinOp.setWrOp, PinOp.clrWrOp, PinOp.setDataInOp] ∧
    (write_cpld d addr data).gpio1_dr.testBit 0 = true ∧
    (write_cpld d addr data).gpio1_dr.testBit 1 = d.gpio1_dr.testBit 1 ∧
    (∀ i, 16 ≤ i → i < 24 → (write_cpld d addr data).gpio3_gdir.testBit i = false) := by
  refine ⟨?_, ?_, ?_, ?_⟩
  · simp [write_cpld, set_data_out, set_addr, write_data, set_wr, clr_wr, set_data_in]
  · show (((((d.gpio1_dr &&& 0xFFFFFFFE) % 2 ^ 32) ||| 0x1) % 2 ^ 32)).testBit 0 = true
    rw [Nat.testBit_mod_two_pow]
    simp
  · show (((((d.gpio1_dr &&& 0xFFFFFFFE) % 2 ^ 32) ||| 0x1) % 2 ^ 32)).testBit 1
      = d.gpio1_dr.testBit 1
    rw [or_preserve _ _ _ (by omega) (by decide)]
    exact and_preserve _ _ _ (by omega) (by decide)
  · intro i h16 h24
    show ((((d.gpio3_gdir ||| 0xFF0000) % 2 ^ 32) &&& 0xFF00FFFF) % 2 ^ 32).testBit i = false
    rw [Nat.testBit_mod_two_pow]
    simp [mask_data_owned i h16 h24]

/-- Claim C3 counterexample: on the all-zero pin state at address 0, the
read cycle emitted by read_cpld deasserts the read strobe and only then
samples the data lines, so its pin-operation log is not the claimed
sequence (which samples before deassertion). -/
theorem read_cpld_sample_order_counterexample :
    (read_cpld pinZero 0).2.log =
      [PinOp.setDataInOp, PinOp.setAddrOp 0, PinOp.setRdOp, PinOp.clrRdOp,
        PinOp.readDataOp 0] ∧
    (read_cpld pinZero 0).2.log ≠ specReadCycleOps 0 ((read_cpld pinZero 0).1) := by
  decide

/-- Claim C3 as amended: every readByte bus cycle emits the pin-operation
sequence data-lines-to-input, drive address, assert read strobe, deassert
read strobe, then sample the data lines — the sample is taken after, not
before, strobe deassertion — and the sampled byte (read from the state in
which the strobe has already been deasserted) is returned. -/
theorem read_cpld_cycle_ops (d : Pin) (addr : Nat) :
    (read_cpld d addr).2.log =
      d.log ++ [PinOp.setDataInOp, PinOp.setAddrOp addr, PinOp.setRdOp, PinOp.clrRdOp,
        PinOp.readDataOp ((read_cpld d addr).1)] ∧
    (read_cpld d addr).1 = read_data (clr_rd (set_rd (set_addr (set_data_in d) addr))) := by
  constructor
  · simp [read_cpld, set_data_in, set_addr, set_rd, clr_rd, read_data]
  · rfl

/- Second part: the CPLD register/dual-port-RAM level.  Register addresses
come from the missing header iobus.h, so they are kept symbolic: the
dual-port RAM is addressed by byte offset and every named register is its
own address.  A bus-operation log records, in order, every write_cpld and
read_cpld the driver performs. -/

/-- CPLD bus addresses: dual-port RAM offsets plus the named registers.
Modelled from the spec: the numeric values of the register addresses live
in the missing header iobus.h, so the addresses are kept symbolic. -/
inductive CpldAddr where
  | ram : Nat → CpldAddr
  | TCR : CpldAddr
  | RPAMR1 : CpldAddr
  | IMR : CpldAddr
  | RUNSTAT : CpldAddr
  | CHSEL : CpldAddr
  | RXTXEN : CpldAddr
  | RTER : CpldAddr
  | ISR : CpldAddr
  | RSR : CpldAddr
  | RDN1 : CpldAddr
  | RDN2 : CpldAddr
  | RPAR : CpldAddr
  | TNUMR_L : CpldAddr
  | TNUMR_H : CpldAddr
  | LED : CpldAddr
deriving DecidableEq, Repr

/-- One logged CPLD bus operation: a register/RAM write or read with the
byte transferred. -/
inductive BusOp where
  | wr : CpldAddr → Nat → BusOp
  | rd : CpldAddr → Nat → BusOp
deriving DecidableEq, Repr

/-- Transfer state of one direction, as in the source's IDLE/BUSY. -/
inductive XferStat where
  | IDLE : XferStat
  | BUSY : XferStat
deriving DecidableEq, Repr

/-- A wake-up event issued on one of the two wait queues. -/
inductive Wake where
  | recvWake : Wake
  | sendWake : Wake
deriving DecidableEq, Repr

/-- Modelled from the spec: receive-complete bit of the interrupt status
register (RMC in the missing header iobus.h); a representative nonzero
bit value, distinct from TMC. -/
def RMC : Nat := 1

/-- Modelled from the spec: transmit-complete bit of the interrupt status
register (TMC in the missing header iobus.h); distinct from RMC. -/
def TMC : Nat := 2

/-- Modelled from the spec: receive-arm-enable bit of the RTER register
(HREC_EN in the missing header iobus.h). -/
def HREC_EN : Nat := 1

/-- Modelled from the spec: transmit-arm-enable bit of the RTER register
(HSND_EN in the missing header iobus.h), distinct from HREC_EN. -/
def HSND_EN : Nat := 2

/-- Modelled from the spec: RXTXEN value selecting the receive direction
(RXTXEN_R in the missing header iobus.h). -/
def RXTXEN_R : Nat := 0

/-- Modelled from the spec: RXTXEN value selecting the transmit direction
(RXTXEN_T in the missing header iobus.h), distinct from RXTXEN_R. -/
def RXTXEN_T : Nat := 1

/-- The driver-visible system state: the CPLD's byte-addressed contents as
seen over the bus, the ordered bus-operation log, the IOBUS_DEV fields the
claims are about (send_stat, recv_stat, send_buf, recv_buf, recv_bytes)
and the wake-up events issued so far. -/
structure Sys where
  cpld : CpldAddr → Nat
  log : List BusOp
  send_stat : XferStat
  recv_stat : XferStat
  send_buf : Nat → Nat
  recv_buf : Nat → Nat
  recv_bytes : Nat
  wakes : List Wake

/-- write_cpld at the register level: the byte (an unsigned char, hence
mod 256) is stored at the addressed location and the write is logged. -/
def wcpld (a : CpldAddr) (v : Nat) (s : Sys) : Sys :=
  { s with cpld := Function.update s.cpld a (v % 256),
           log := s.log ++ [BusOp.wr a (v % 256)] }

/-- read_cpld at the register level: returns the byte (an unsigned char,
hence mod 256) at the addressed location and logs the read. -/
def rcpld (a : CpldAddr) (s : Sys) : Nat × Sys :=
  (s.cpld a % 256, { s with log := s.log ++ [BusOp.rd a (s.cpld a % 256)] })

/-- The frame-staging loop of iobus_write: write send_buf bytes 0..n-1 to
dual-port RAM offsets 0..n-1, in increasing offset order. -/
def stageFrame (s : Sys) : Nat → Sys
  | 0 => s
  | n + 1 =>
    let s1 := stageFrame s n
    wcpld (CpldAddr.ram n) (s1.send_buf n) s1

/-- Result of an iobus_write call.  blocked stands for the code path that
parks the caller on the send wait queue (wait_event_interruptible); the
model cuts the loop there since only the interrupt path can change
send_stat. -/
inductive WriteRes where
  | ok : Nat → WriteRes
  | eagain : WriteRes
  | efault : WriteRes
  | blocked : WriteRes
deriving DecidableEq, Repr

/-- iobus_write: busy check (with the O_NONBLOCK early -EAGAIN), copy of
count caller bytes into send_buf (copyOk models copy_from_user succeeding;
on failure -EFAULT is returned), then under the lock: stage the frame into
dual-port RAM, latch send_buf byte 0 into RPAR, write the transmit length
low/high registers, select the transmit direction, set the transmit-arm
bit in RTER, and mark send_stat BUSY. -/
def iobus_write (s : Sys) (nonblock : Bool) (copyOk : Bool)
    (buf : Nat → Nat) (count : Nat) : WriteRes × Sys :=
  if s.send_stat = XferStat.BUSY then
    if nonblock then (WriteRes.eagain, s) else (WriteRes.blocked, s)
  else if copyOk = false then (WriteRes.efault, s)
  else
    let s1 := { s with send_buf := fun i => if i < count then buf i % 256 else s.send_buf i }
    let s2 := stageFrame s1 count
    let s3 := wcpld CpldAddr.RPAR (s2.send_buf 0) s2
    let s4 := wcpld CpldAddr.TNUMR_L (count &&& 0xFF) s3
    let s5 := wcpld CpldAddr.TNUMR_H ((count >>> 8) &&& 0xFF) s4
    let s6 := wcpld CpldAddr.RXTXEN RXTXEN_T s5
    let p := rcpld CpldAddr.RTER s6
    let s7 := wcpld CpldAddr.RTER (p.1 ||| HSND_EN) p.2
    (WriteRes.ok count, { s7 with send_stat := XferStat.BUSY })

/-- Result of an iobus_read call; blocked is as in WriteRes but for the
receive wait queue. -/
inductive ReadRes where
  | ok : Nat → ReadRes
  | eagain : ReadRes
  | efault : ReadRes
  | blocked : ReadRes
deriving DecidableEq, Repr

/-- iobus_read: busy check (with the O_NONBLOCK early -EAGAIN), then
copy_to_user of exactly recv_bytes bytes of recv_buf to the caller (the
returned list; copyOk models the copy succeeding — on failure -EFAULT is
returned with no state change), then recv_stat is set BUSY and recv_bytes
returned.  The caller's capacity argument `count` is never consulted. -/
def iobus_read (s : Sys) (nonblock : Bool) (copyOk : Bool) (count : Nat) :
    ReadRes × Sys × List Nat :=
  if s.recv_stat = XferStat.BUSY then
    if nonblock then (ReadRes.eagain, s, []) else (ReadRes.blocked, s, [])
  else if copyOk = false then (ReadRes.efault, s, [])
  else (ReadRes.ok s.recv_bytes, { s with recv_stat := XferStat.BUSY },
    (List.range s.recv_bytes).map s.recv_buf)

/-- The received length the handler computes from the RDN1/RDN2 registers:
low byte or-ed with the high byte shifted left 8, masked to 16 bits. -/
def recvLenOf (s : Sys) : Nat :=
  ((s.cpld CpldAddr.RDN1 % 256) ||| ((s.cpld CpldAddr.RDN2 % 256) <<< 8)) &&& 0xFFFF

/-- The receive-drain loop of the interrupt handler: read dual-port RAM
offsets 0..n-1, in increasing order, into recv_buf. -/
def drainRam (s : Sys) : Nat → Sys
  | 0 => s
  | n + 1 =>
    let s1 := drainRam s n
    let p := rcpld (CpldAddr.ram n) s1
    { p.2 with recv_buf := Function.update p.2.recv_buf n p.1 }

/-- Return value of the interrupt handler (IRQ_HANDLED / IRQ_NONE). -/
inductive IrqRet where
  | handled : IrqRet
  | unhandled : IrqRet
deriving DecidableEq, Repr

/-- The transmit-complete part of the interrupt handler: if the TMC bit of
the already-read interrupt status is set, switch the RS485 direction back
to receive, re-assert the receive-arm bit in RTER, set send_stat IDLE and
wake the send queue; otherwise return IRQ_NONE with nothing written. -/
def tmc_dispatch (isr : Nat) (s : Sys) : IrqRet × Sys :=
  if isr &&& TMC ≠ 0 then
    let s1 := wcpld CpldAddr.RXTXEN RXTXEN_R s
    let p := rcpld CpldAddr.RTER s1
    let s2 := wcpld CpldAddr.RTER (p.1 ||| HREC_EN) p.2
    let s3 := { s2 with send_stat := XferStat.IDLE, wakes := s2.wakes ++ [Wake.sendWake] }
    (IrqRet.handled, s3)
  else (IrqRet.unhandled, s)

/-- The completion-dispatch core of hdlc_interrupt_handler (after the irq
number check and the pin-level edge acknowledgement): read ISR; if the
receive-complete bit is set and RSR reads zero, compute the received
length from RDN1/RDN2, drain that many RAM bytes into recv_buf, re-assert
the receive-arm bit in RTER, set recv_stat IDLE, wake the receive queue
and return IRQ_HANDLED; otherwise fall through to the transmit-complete
check. -/
def hdlc_interrupt_handler (s : Sys) : IrqRet × Sys :=
  let pIsr := rcpld CpldAddr.ISR s
  if pIsr.1 &&& RMC ≠ 0 then
    let pRsr := rcpld CpldAddr.RSR pIsr.2
    if pRsr.1 = 0 then
      let p1 := rcpld CpldAddr.RDN1 pRsr.2
      let p2 := rcpld CpldAddr.RDN2 p1.2
      let n := (p1.1 ||| (p2.1 <<< 8)) &&& 0xFFFF
      let s5 := drainRam { p2.2 with recv_bytes := n } n
      let pR := rcpld CpldAddr.RTER s5
      let s6 := wcpld CpldAddr.RTER (pR.1 ||| HREC_EN) pR.2
      let s7 := { s6 with recv_stat := XferStat.IDLE, wakes := s6.wakes ++ [Wake.recvWake] }
      (IrqRet.handled, s7)
    else tmc_dispatch pIsr.1 pRsr.2
  else tmc_dispatch pIsr.1 pIsr.2

/- Structural lemmas about the frame-staging and receive-drain loops. -/

theorem and_ff_eq_mod (x : Nat) : x &&& 0xFF = x % 256 := by
  have h := Nat.and_pow_two_sub_one_eq_mod x 8
  norm_num at h
  exact h

theorem stageFrame_send_buf (s : Sys) (n : Nat) :
    (stageFrame s n).send_buf = s.send_buf := by
  induction n with
  | zero => rfl
  | succ n ih => simp [stageFrame, wcpld, ih]

theorem stageFrame_cpld_RTER (s : Sys) (n : Nat) :
    (stageFrame s n).cpld CpldAddr.RTER = s.cpld CpldAddr.RTER := by
  induction n with
  | zero => rfl
  | succ n ih => simp [stageFrame, wcpld, Function.update_apply, ih]

theorem stageFrame_log (s : Sys) (n : Nat) :
    (stageFrame s n).log =
      s.log ++ (List.range n).map
        (fun i => BusOp.wr (CpldAddr.ram i) (s.send_buf i % 256)) := by
  induction n with
  | zero => simp [stageFrame]
  | succ n ih =>
    simp [stageFrame, wcpld, ih, stageFrame_send_buf, List.range_succ]

theorem drainRam_cpld (s : Sys) (n : Nat) :
    (drainRam s n).cpld = s.cpld := by
  induction n with
  | zero => rfl
  | succ n ih => simp [drainRam, rcpld, ih]

theorem drainRam_log (s : Sys) (n : Nat) :
    (drainRam s n).log =
      s.log ++ (List.range n).map
        (fun i => BusOp.rd (CpldAddr.ram i) (s.cpld (CpldAddr.ram i) % 256)) := by
  induction n with
  | zero => simp [drainRam]
  | succ n ih =>
    simp [drainRam, rcpld, ih, drainRam_cpld, List.range_succ]

theorem drainRam_recv_buf (s : Sys) (n i : Nat) (h : i < n) :
    (drainRam s n).recv_buf i = s.cpld (CpldAddr.ram i) % 256 := by
  induction n with
  | zero => omega
  | succ n ih =>
    by_cases hc : i = n
    · subst hc
      simp [drainRam, rcpld, Function.update_apply, drainRam_cpld]
    · have hlt : i < n := by omega
      simp [drainRam, rcpld, Function.update_apply, hc, ih hlt]

theorem drainRam_send_stat (s : Sys) (n : Nat) :
    (drainRam s n).send_stat = s.send_stat := by
  induction n with
  | zero => rfl
  | succ n ih => simp [drainRam, rcpld, ih]

theorem drainRam_recv_stat (s : Sys) (n : Nat) :
    (drainRam s n).recv_stat = s.recv_stat := by
  induction n with
  | zero => rfl
  | succ n ih => simp [drainRam, rcpld, ih]

theorem drainRam_send_buf (s : Sys) (n : Nat) :
    (drainRam s n).send_buf = s.send_buf := by
  induction n with
  | zero => rfl
  | succ n ih => simp [drainRam, rcpld, ih]

theorem drainRam_recv_bytes (s : Sys) (n : Nat) :
    (drainRam s n).recv_bytes = s.recv_bytes := by
  induction n with
  | zero => rfl
  | succ n ih => simp [drainRam, rcpld, ih]

theorem drainRam_wakes (s : Sys) (n : Nat) :
    (drainRam s n).wakes = s.wakes := by
  induction n with
  | zero => rfl
  | succ n ih => simp [drainRam, rcpld, ih]

/-- Shared description of a successful iobus_write: result, final send
state, and the exact bus-operation log it appends. -/
theorem iobus_write_log_aux (s : Sys) (buf : Nat → Nat) (count : Nat)
    (hidle : s.send_stat = XferStat.IDLE) :
    (iobus_write s false true buf count).1 = WriteRes.ok count ∧
    (iobus_write s false true buf count).2.send_stat = XferStat.BUSY ∧
    (iobus_write s false true buf count).2.log =
      s.log
      ++ (List.range count).map (fun i => BusOp.wr (CpldAddr.ram i) (buf i % 256))
      ++ [BusOp.wr CpldAddr.RPAR ((if 0 < count then buf 0 % 256 else s.send_buf 0) % 256),
          BusOp.wr CpldAddr.TNUMR_L (count % 256),
          BusOp.wr CpldAddr.TNUMR_H (count / 256 % 256),
          BusOp.wr CpldAddr.RXTXEN RXTXEN_T,
          BusOp.rd CpldAddr.RTER (s.cpld CpldAddr.RTER % 256),
          BusOp.wr CpldAddr.RTER (((s.cpld CpldAddr.RTER % 256) ||| HSND_EN) % 256)] := by
  have hmap : ∀ i ∈ List.range count,
      BusOp.wr (CpldAddr.ram i) ((if i < count then buf i % 256 else s.send_buf i) % 256)
        = BusOp.wr (CpldAddr.ram i) (buf i % 256) := by
    intro i hi
    simp [List.mem_range.mp hi]
  refine ⟨?_, ?_, ?_⟩
  · simp [iobus_write, hidle]
  · simp [iobus_write, hidle]
  · simp only [iobus_write, hidle]
    simp only [reduceCtorEq, if_false, Bool.true_eq_false]
    simp [wcpld, rcpld, stageFrame_log, stageFrame_send_buf, stageFrame_cpld_RTER,
      Function.update_apply, and_ff_eq_mod, Nat.shiftRight_eq_div_pow,
      List.map_congr_left hmap, Nat.pos_iff_ne_zero]
    decide

/-- Claim C1: for every write call with a buffer of count bytes whose byte
0 is X, the emitted CPLD bus-operation sequence writes all count frame
bytes to dual-port RAM offsets 0..count-1, latches X into the
reply-address register RPAR, and writes the transmit-length low and high
registers, all strictly before the single operation that sets the
transmit-arm-enable bit in RTER; the arm write is the last operation, so
it is never issued before the frame, reply address and length are fully
staged. -/
theorem iobus_write_stages_frame_before_arm (s : Sys) (buf : Nat → Nat) (count : Nat)
    (hidle : s.send_stat = XferStat.IDLE) (hcount : 0 < count) :
    (iobus_write s false true buf count).1 = WriteRes.ok count ∧
    (iobus_write s false true buf count).2.send_stat = XferStat.BUSY ∧
    (iobus_write s false true buf count).2.log =
      s.log
      ++ (List.range count).map (fun i => BusOp.wr (CpldAddr.ram i) (buf i % 256))
      ++ [BusOp.wr CpldAddr.RPAR (buf 0 % 256),
          BusOp.wr CpldAddr.TNUMR_L (count % 256),
          BusOp.wr CpldAddr.TNUMR_H (count / 256 % 256)]
      ++ [BusOp.wr CpldAddr.RXTXEN RXTXEN_T,
          BusOp.rd CpldAddr.RTER (s.cpld CpldAddr.RTER % 256),
          BusOp.wr CpldAddr.RTER (((s.cpld CpldAddr.RTER % 256) ||| HSND_EN) % 256)] := by
  obtain ⟨h1, h2, h3⟩ := iobus_write_log_aux s buf count hidle
  refine ⟨h1, h2, ?_⟩
  rw [h3]
  simp [hcount]

/-- An idle system state used for concrete evaluations. -/
def sysIdle : Sys :=
  { cpld := fun _ => 0, log := [], send_stat := XferStat.IDLE,
    recv_stat := XferStat.IDLE, send_buf := fun _ => 0, recv_buf := fun _ => 0,
    recv_bytes := 0, wakes := [] }

/-- A both-directions-busy system state used for concrete evaluations. -/
def sysBusy : Sys :=
  { sysIdle with send_stat := XferStat.BUSY, recv_stat := XferStat.BUSY }

/-- An idle state with two received bytes pending, for read evaluations. -/
def sysRecvIdle : Sys :=
  { sysIdle with recv_bytes := 2 }

/-- A concrete user buffer whose byte 0 is 5. -/
def c1buf : Nat → Nat :=
  fun i => if i = 0 then 5 else i

/-- Witness for C1 at a concrete idle state with a 3-byte frame. -/
theorem iobus_write_stages_frame_before_arm_witness :
    (sysIdle.send_stat = XferStat.IDLE ∧ 0 < 3) ∧
    (iobus_write sysIdle false true c1buf 3).1 = WriteRes.ok 3 :=
  ⟨⟨rfl, by decide⟩,
    (iobus_write_stages_frame_before_arm sysIdle c1buf 3 rfl (by decide)).1⟩

/-- Claim C10: a write call accepts any byte count without a maximum-frame
check — the call succeeds and returns count for every count — and the
values staged in the transmit-length registers are the low byte
count mod 256 and the high byte (count div 256) mod 256, whose combination
is count mod 2^16; for count at least 2^16 the staged length silently
wraps. -/
theorem iobus_write_length_wraps (s : Sys) (buf : Nat → Nat) (count : Nat)
    (hidle : s.send_stat = XferStat.IDLE) :
    (iobus_write s false true buf count).1 = WriteRes.ok count ∧
    BusOp.wr CpldAddr.TNUMR_L (count % 256) ∈ (iobus_write s false true buf count).2.log ∧
    BusOp.wr CpldAddr.TNUMR_H (count / 256 % 256) ∈ (iobus_write s false true buf count).2.log ∧
    count % 256 + 256 * (count / 256 % 256) = count % 65536 := by
  obtain ⟨h1, _, h3⟩ := iobus_write_log_aux s buf count hidle
  refine ⟨h1, ?_, ?_, by omega⟩
  · rw [h3]
    simp
  · rw [h3]
    simp

/-- Witness for C10 at count 70000, which exceeds 2^16 and wraps. -/
theorem iobus_write_length_wraps_witness :
    (sysIdle.send_stat = XferStat.IDLE) ∧
    (iobus_write sysIdle false true c1buf 70000).1 = WriteRes.ok 70000 ∧
    70000 % 256 + 256 * (70000 / 256 % 256) = 70000 % 65536 :=
  ⟨rfl, (iobus_write_length_wraps sysIdle c1buf 70000 rfl).1,
    (iobus_write_length_wraps sysIdle c1buf 70000 rfl).2.2.2⟩

/-- Claim C6: a non-blocking write while SendState is Busy, and a
non-blocking read while RecvState is Busy, return EAGAIN (WouldBlock)
immediately with the whole state — transfer states, scratch buffers and
all CPLD registers — unchanged. -/
theorem nonblocking_busy_returns_eagain (s : Sys) (copyOk : Bool)
    (buf : Nat → Nat) (count cap : Nat) :
    (s.send_stat = XferStat.BUSY →
      iobus_write s true copyOk buf count = (WriteRes.eagain, s)) ∧
    (s.recv_stat = XferStat.BUSY →
      iobus_read s true copyOk cap = (ReadRes.eagain, s, [])) := by
  constructor
  · intro h
    simp [iobus_write, h]
  · intro h
    simp [iobus_read, h]

/-- Witness for C6 on a concrete busy state. -/
theorem nonblocking_busy_returns_eagain_witness :
    (sysBusy.send_stat = XferStat.BUSY ∧ sysBusy.recv_stat = XferStat.BUSY) ∧
    iobus_write sysBusy true true c1buf 3 = (WriteRes.eagain, sysBusy) ∧
    iobus_read sysBusy true true 16 = (ReadRes.eagain, sysBusy, []) :=
  ⟨⟨rfl, rfl⟩, (nonblocking_busy_returns_eagain sysBusy true c1buf 3 16).1 rfl,
    (nonblocking_busy_returns_eagain sysBusy true c1buf 3 16).2 rfl⟩

/-- Claim C5: a read call made while RecvState is Idle copies the
recv_bytes bytes of the receive scratch buffer to the caller, sets
RecvState to Busy, and returns that byte count; if the copy to the caller
fails, the call returns EFAULT and the state — in particular RecvState,
which stays Idle, and SendState — is unchanged. -/
theorem iobus_read_idle_behavior (s : Sys) (nb : Bool) (cap : Nat)
    (hidle : s.recv_stat = XferStat.IDLE) :
    iobus_read s nb true cap =
      (ReadRes.ok s.recv_bytes, { s with recv_stat := XferStat.BUSY },
        (List.range s.recv_bytes).map s.recv_buf) ∧
    iobus_read s nb false cap = (ReadRes.efault, s, []) := by
  constructor <;> simp [iobus_read, hidle]

/-- Witness for C5 on a concrete idle state holding two received bytes. -/
theorem iobus_read_idle_behavior_witness :
    (sysRecvIdle.recv_stat = XferStat.IDLE) ∧
    (iobus_read sysRecvIdle false true 16 =
      (ReadRes.ok sysRecvIdle.recv_bytes, { sysRecvIdle with recv_stat := XferStat.BUSY },
        (List.range sysRecvIdle.recv_bytes).map sysRecvIdle.recv_buf) ∧
     iobus_read sysRecvIdle false false 16 = (ReadRes.efault, sysRecvIdle, [])) :=
  ⟨rfl, iobus_read_idle_behavior sysRecvIdle false 16 rfl⟩

/-- Claim C9: the capacity argument of a read call is never used to bound
the copy — the call's outcome is identical for any two capacities — and a
successful read returns and delivers exactly recv_bytes bytes, even when
that exceeds the stated capacity. -/
theorem iobus_read_ignores_capacity (s : Sys) (nb copyOk : Bool) (cap cap2 : Nat) :
    iobus_read s nb copyOk cap = iobus_read s nb copyOk cap2 ∧
    (s.recv_stat = XferStat.IDLE →
      (iobus_read s nb true cap).1 = ReadRes.ok s.recv_bytes ∧
      ((iobus_read s nb true cap).2.2).length = s.recv_bytes) := by
  refine ⟨rfl, ?_⟩
  intro h
  simp [iobus_read, h]

/-- Witness for C9: capacity 4 and capacity 99 give identical outcomes on
a state holding two received bytes. -/
theorem iobus_read_ignores_capacity_witness :
    (sysRecvIdle.recv_stat = XferStat.IDLE) ∧
    iobus_read sysRecvIdle false true 4 = iobus_read sysRecvIdle false true 99 ∧
    (iobus_read sysRecvIdle false true 4).1 = ReadRes.ok sysRecvIdle.recv_bytes ∧
    ((iobus_read sysRecvIdle false true 4).2.2).length = sysRecvIdle.recv_bytes :=
  ⟨rfl, (iobus_read_ignores_capacity sysRecvIdle false true 4 99).1,
    ((iobus_read_ignores_capacity sysRecvIdle false true 4 99).2 rfl).1,
    ((iobus_read_ignores_capacity sysRecvIdle false true 4 99).2 rfl).2⟩

/-- Claim C2: on a completion event with the receive-complete flag set and
the receive-status register reading zero, the handler reads the 16-bit
length from RDN1/RDN2, reads exactly that many bytes sequentially from
dual-port RAM offsets 0..n-1 into the receive buffer, re-asserts the
receive-arm-enable bit in RTER, sets RecvState to Idle and wakes the
receive queue; the stored count and buffer contents come from this event's
drain, SendState is untouched, no send wake is issued, and — as the log
equation shows — no transmit-side register is written in the same
dispatch. -/
theorem hdlc_handler_receive_complete (s : Sys)
    (h1 : (s.cpld CpldAddr.ISR % 256) &&& RMC ≠ 0)
    (h2 : s.cpld CpldAddr.RSR % 256 = 0) :
    (hdlc_interrupt_handler s).1 = IrqRet.handled ∧
    (hdlc_interrupt_handler s).2.recv_bytes = recvLenOf s ∧
    (∀ i, i < recvLenOf s →
      (hdlc_interrupt_handler s).2.recv_buf i = s.cpld (CpldAddr.ram i) % 256) ∧
    (hdlc_interrupt_handler s).2.recv_stat = XferStat.IDLE ∧
    (hdlc_interrupt_handler s).2.wakes = s.wakes ++ [Wake.recvWake] ∧
    (hdlc_interrupt_handler s).2.send_stat = s.send_stat ∧
    (hdlc_interrupt_handler s).2.send_buf = s.send_buf ∧
    (hdlc_interrupt_handler s).2.log =
      s.log
      ++ [BusOp.rd CpldAddr.ISR (s.cpld CpldAddr.ISR % 256),
          BusOp.rd CpldAddr.RSR 0,
          BusOp.rd CpldAddr.RDN1 (s.cpld CpldAddr.RDN1 % 256),
          BusOp.rd CpldAddr.RDN2 (s.cpld CpldAddr.RDN2 % 256)]
      ++ (List.range (recvLenOf s)).map
          (fun i => BusOp.rd (CpldAddr.ram i) (s.cpld (CpldAddr.ram i) % 256))
      ++ [BusOp.rd CpldAddr.RTER (s.cpld CpldAddr.RTER % 256),
          BusOp.wr CpldAddr.RTER (((s.cpld CpldAddr.RTER % 256) ||| HREC_EN) % 256)] := by
  refine ⟨?_, ?_, ?_, ?_, ?_, ?_, ?_, ?_⟩
  · simp [hdlc_interrupt_handler, rcpld, h1, h2]
  · simp [hdlc_interrupt_handler, rcpld, wcpld, h1, h2, drainRam_recv_bytes, recvLenOf]
  · intro i hi
    simp only [hdlc_interrupt_handler, rcpld, wcpld, h1, h2, ne_eq, not_false_iff,
      if_true, if_pos]
    rw [drainRam_recv_buf]
    exact hi
  · simp [hdlc_interrupt_handler, rcpld, wcpld, h1, h2]
  · simp [hdlc_interrupt_handler, rcpld, wcpld, h1, h2, drainRam_wakes]
  · simp [hdlc_interrupt_handler, rcpld, wcpld, h1, h2, drainRam_send_stat]
  · simp [hdlc_interrupt_handler, rcpld, wcpld, h1, h2, drainRam_send_buf]
  · simp [hdlc_interrupt_handler, rcpld, wcpld, h1, h2, drainRam_log, drainRam_cpld,
      recvLenOf, List.append_assoc]

/-- A concrete state signalling receive-complete with no error and a
2-byte frame (RDN1 = 2, RDN2 = 0) whose RAM bytes are 0xAB, 0xCD. -/
def c2s : Sys :=
  { cpld := fun a => match a with
      | CpldAddr.ISR => 1
      | CpldAddr.RDN1 => 2
      | CpldAddr.ram 0 => 0xAB
      | CpldAddr.ram 1 => 0xCD
      | _ => 0,
    log := [], send_stat := XferStat.IDLE, recv_stat := XferStat.BUSY,
    send_buf := fun _ => 0, recv_buf := fun _ => 0, recv_bytes := 0, wakes := [] }

/-- Witness for C2 on the concrete receive-complete state. -/
theorem hdlc_handler_receive_complete_witness :
    ((c2s.cpld CpldAddr.ISR % 256) &&& RMC ≠ 0 ∧ c2s.cpld CpldAddr.RSR % 256 = 0) ∧
    (hdlc_interrupt_handler c2s).1 = IrqRet.handled :=
  ⟨⟨by decide, by decide⟩,
    (hdlc_handler_receive_complete c2s (by decide) (by decide)).1⟩

/-- Append bus operations to a state's log, leaving all else unchanged. -/
def withLog (s : Sys) (ops : List BusOp) : Sys :=
  { s with log := s.log ++ ops }

/-- A concrete anomalous completion state: ISR has both the
receive-complete and transmit-complete bits set while RSR reports a
reception error, and the sender is still busy. -/
def c4s : Sys :=
  { cpld := fun a => match a with
      | CpldAddr.ISR => 3
      | CpldAddr.RSR => 1
      | _ => 0,
    log := [], send_stat := XferStat.BUSY, recv_stat := XferStat.BUSY,
    send_buf := fun _ => 0, recv_buf := fun _ => 0, recv_bytes := 0, wakes := [] }

/-- Claim C4 counterexample: on a completion event whose receive-complete
flag is set and whose receive-status register is nonzero — an anomalous
status per the claim — but whose transmit-complete flag is also set, the
handler does NOT drop the event: it flips SendState, issues a wake, and
writes the direction register RXTXEN, contradicting the claim's "no state
change, no wake, no direction or arm-enable register written". -/
theorem hdlc_handler_anomaly_counterexample :
    ((c4s.cpld CpldAddr.ISR % 256) &&& RMC ≠ 0 ∧ (c4s.cpld CpldAddr.RSR % 256) ≠ 0) ∧
    (hdlc_interrupt_handler c4s).2.send_stat ≠ c4s.send_stat ∧
    (hdlc_interrupt_handler c4s).2.wakes ≠ c4s.wakes ∧
    BusOp.wr CpldAddr.RXTXEN RXTXEN_R ∈ (hdlc_interrupt_handler c4s).2.log := by
  decide

/-- Claim C4 as amended: an anomalous completion event is dropped — no
field of the state changes apart from the log, which records only the
status reads, so nothing is written, no transfer state moves and no waiter
is woken — provided the transmit-complete flag is not also set.  (When the
receive path sees an error but ISR also carries the transmit-complete bit,
the handler falls through and performs transmit-complete handling, as the
counterexample shows.)  Case one: receive-complete set, receive status
nonzero, transmit-complete clear.  Case two: neither flag set. -/
theorem hdlc_handler_anomaly_dropped (s : Sys) :
    ((s.cpld CpldAddr.ISR % 256) &&& RMC ≠ 0 →
     (s.cpld CpldAddr.RSR % 256) ≠ 0 →
     (s.cpld CpldAddr.ISR % 256) &&& TMC = 0 →
      hdlc_interrupt_handler s =
        (IrqRet.unhandled,
          withLog s [BusOp.rd CpldAddr.ISR (s.cpld CpldAddr.ISR % 256),
            BusOp.rd CpldAddr.RSR (s.cpld CpldAddr.RSR % 256)])) ∧
    ((s.cpld CpldAddr.ISR % 256) &&& RMC = 0 →
     (s.cpld CpldAddr.ISR % 256) &&& TMC = 0 →
      hdlc_interrupt_handler s =
        (IrqRet.unhandled,
          withLog s [BusOp.rd CpldAddr.ISR (s.cpld CpldAddr.ISR % 256)])) := by
  constructor
  · intro h1 h2 h3
    simp [hdlc_interrupt_handler, tmc_dispatch, rcpld, withLog, h1, h2, h3]
  · intro h1 h3
    simp [hdlc_interrupt_handler, tmc_dispatch, rcpld, withLog, h1, h3]

/-- A concrete spurious completion state: ISR reads zero. -/
def c4quiet : Sys :=
  { c4s with cpld := fun _ => 0 }

/-- Witness for the amended C4 on a concrete spurious event (no flag
set): the handler returns IRQ_NONE and only the ISR read is logged. -/
theorem hdlc_handler_anomaly_dropped_witness :
    ((c4quiet.cpld CpldAddr.ISR % 256) &&& RMC = 0 ∧
     (c4quiet.cpld CpldAddr.ISR % 256) &&& TMC = 0) ∧
    hdlc_interrupt_handler c4quiet =
      (IrqRet.unhandled,
        withLog c4quiet [BusOp.rd CpldAddr.ISR (c4quiet.cpld CpldAddr.ISR % 256)]) :=
  ⟨⟨by decide, by decide⟩,
    (hdlc_handler_anomaly_dropped c4quiet).2 (by decide) (by decide)⟩

/-- Witness for C7 on the all-zero pin state, address 4, data 7, bit 20. -/
theorem write_cpld_cycle_ops_witness :
    (write_cpld pinZero 4 7).log =
      pinZero.log ++ [PinOp.setDataOutOp, PinOp.setAddrOp 4, PinOp.writeDataOp 7,
        PinOp.setWrOp, PinOp.clrWrOp, PinOp.setDataInOp] ∧
    (16 ≤ 20 ∧ 20 < 24) ∧
    (write_cpld pinZero 4 7).gpio3_gdir.testBit 20 = false :=
  ⟨(write_cpld_cycle_ops pinZero 4 7).1, ⟨by decide, by decide⟩,
    (write_cpld_cycle_ops pinZero 4 7).2.2.2 20 (by decide) (by decide)⟩
